import Mathlib

/-!
Verification of the Warthog peer-to-peer connection manager
(`src/node/asyncio/conman.cpp`, `src/node/asyncio/connection.cpp`)
against its natural-language specification.

The C++ code is shallowly embedded: socket handles and libuv calls are
replaced by explicit oracle parameters (the integer results the OS calls
return), stateful code becomes explicit state passing, and side effects
(OS-level close, notifications, writes, lock operations) are recorded as
explicit event lists so the theorems can speak about what happened and in
which order.
-/

namespace Warthog

/-- Error codes as returned by libuv / errno-style calls. -/
abbrev ErrCode := Int

/-- Byte swap of a 16-bit value: `(hi, lo) ↦ (lo, hi)`. -/
def byteswap16 (x : Nat) : Nat := (x % 256) * 256 + (x / 256 % 256)

/-- Byte swap of a 32-bit value. -/
def byteswap32 (x : Nat) : Nat :=
  (x % 256) * 2 ^ 24 + (x / 2 ^ 8 % 256) * 2 ^ 16 + (x / 2 ^ 16 % 256) * 2 ^ 8
    + (x / 2 ^ 24 % 256)

/-- Network-to-host conversion `ntoh32` of a 32-bit value, as in the source.
On a little-endian host (`le = true`) this is a byte swap; on a big-endian
host it is the identity. -/
def ntoh32 (le : Bool) (x : Nat) : Nat :=
  if le then byteswap32 x else x % 2 ^ 32

/-- Value type `EndpointAddress`: an IPv4 address (32-bit) and a port
(16-bit), as stored by the connection manager. -/
structure EndpointAddress where
  ip : Nat
  port : Nat
  deriving DecidableEq, Repr

/-- Address families that can appear in a `sockaddr_storage`. -/
inductive AddressFamily where
  | af_inet
  | af_inet6
  | af_unix
  deriving DecidableEq, Repr

/-- The part of `sockaddr_storage` read by `get_ipv4_endpoint`:
the family field, and (interpreted as `sockaddr_in`) the 32-bit
`sin_addr.s_addr` and 16-bit `sin_port`, both in network byte order. -/
structure SockaddrStorage where
  family : AddressFamily
  sin_addr : Nat
  sin_port : Nat
  deriving DecidableEq, Repr

/-- Embedding of `get_ipv4_endpoint` (conman.cpp, anonymous namespace), given an already
filled `sockaddr_storage`: returns `none` for a non-IPv4 family; otherwise
builds `EndpointAddress(IPv4(ntoh32(sin_addr)), sin_port)` — note the IP is
converted from network to host byte order while the port is stored as the
raw `sin_port` value. -/
def get_ipv4_endpoint (le : Bool) (storage : SockaddrStorage) : Option EndpointAddress :=
  if storage.family = AddressFamily.af_inet then
    some ⟨ntoh32 le storage.sin_addr, storage.sin_port⟩
  else
    none

/-- Result of the `uv_tcp_getpeername` OS call: its return code and the
`sockaddr_storage` it fills on success. -/
structure GetpeernameResult where
  ret : Int
  filled : SockaddrStorage
  deriving DecidableEq, Repr

/-- Variant of `get_ipv4_endpoint` including its `assert(uv_tcp_getpeername(...) == 0)`
line. The call to `uv_tcp_getpeername` happens only inside the assert
expression, so its execution depends on whether asserts are compiled in
(`assertsEnabled`). When asserts are compiled out (`NDEBUG`), the local
`sockaddr_storage` keeps its indeterminate initial contents, modelled by the
explicit `garbage` parameter. The outer `Option` is `none` when an enabled
assert fails (process abort). -/
def get_ipv4_endpoint_asserting (le : Bool) (assertsEnabled : Bool)
    (peername : GetpeernameResult) (garbage : SockaddrStorage) :
    Option (Option EndpointAddress) :=
  if assertsEnabled then
    if peername.ret = 0 then
      some (get_ipv4_endpoint le peername.filled)
    else
      none
  else
    some (get_ipv4_endpoint le garbage)

/-! ## Connection lifecycle (`connection.cpp`) -/

/-- The buffer-full error code used by `TCPConnection::async_send`.
Modelled from the spec: `EBUFFERFULL` is a distinguished per-connection
error code (its numeric value is declared in a header not present in the
sources; no claim depends on the value, only on its identity). -/
def EBUFFERFULL : ErrCode := -20100

/-- Per-connection mutable state visible to the embedded operations:
whether `tcpHandle->closing()` holds, and the OS write-queue length in
bytes (`tcpHandle->write_queue_size()`). -/
structure ConnState where
  closing : Bool
  writeQueueSize : Nat
  deriving DecidableEq, Repr

/-- Observable per-connection side effects. -/
inductive ConnEvent where
  /-- OS-level socket close initiated, i.e. `tcpHandle->close()`. -/
  | osClose
  /-- Close notification to the owner with error code `e`, i.e. `on_close`. -/
  | onCloseNotify (e : ErrCode)
  /-- Write of `size` bytes attempted, i.e. `tcpHandle->write(...)`. -/
  | writeAttempt (size : Nat)
  deriving DecidableEq, Repr

/-- Embedding of `TCPConnection::close_internal` (connection.cpp:50-60), loop thread
only: if the handle is already closing, do nothing; otherwise initiate the
OS-level close, log, and fire the `on_close` notification carrying the
error code. -/
def close_internal (e : ErrCode) (s : ConnState) : ConnState × List ConnEvent :=
  if s.closing then
    (s, [])
  else
    ({ s with closing := true }, [ConnEvent.osClose, ConnEvent.onCloseNotify e])

/-- The loop-thread body of `TCPConnection::async_send` (connection.cpp:
63-72). `writeErr` is the result the `tcpHandle->write` call returns; on
success the OS write queue grows by `size` before `write_queue_size()` is
compared against `MAXBUFFER` (`maxbuffer` here, a fixed threshold whose
value lives in a header not present in the sources). If the write fails or
the queue exceeds the threshold, the connection is closed with
`EBUFFERFULL`. If the connection is already closing, nothing happens. -/
def async_send_internal (maxbuffer : Nat) (writeErr : ErrCode) (size : Nat)
    (s : ConnState) : ConnState × List ConnEvent :=
  if s.closing then
    (s, [])
  else
    let s1 : ConnState :=
      if writeErr = 0 then { s with writeQueueSize := s.writeQueueSize + size } else s
    if writeErr ≠ 0 ∨ s1.writeQueueSize > maxbuffer then
      let r := close_internal EBUFFERFULL s1
      (r.1, ConnEvent.writeAttempt size :: r.2)
    else
      (s1, [ConnEvent.writeAttempt size])

/-! ## Connection manager (`conman.cpp`) -/

/-- Result of `UV_Helper::insert_connection` as far as `tcpConnections` is
concerned. `set` is the container contents after the insertion;
`closeHandlerTarget` is the element the captured iterator
(`auto iter = tcpConnections.begin()`) points at — the element the
registered `close_event` handler will erase.

The container itself is modelled from the spec: `tcpConnections` is
declared in a header not present in the sources; the spec describes
ConnectionSet as an insertion-order container with O(1) erase through a
stored position handle, so it is modelled as a list of connection ids in
insertion order (insert appends), with an iterator standing for the id of
the element it points at. -/
structure InsertResult where
  set : List Nat
  closeHandlerTarget : Option Nat
  deriving DecidableEq, Repr

/-- Embedding of `UV_Helper::insert_connection` (conman.cpp:20-41), restricted to its
effect on `tcpConnections`: insert the new connection, then capture
`iter = tcpConnections.begin()` for the `close_event` handler. -/
def insert_connection (set : List Nat) (newId : Nat) : InsertResult :=
  let s' := set ++ [newId]
  { set := s', closeHandlerTarget := s'.head? }

/-- The `close_event` handler registered by `insert_connection`: erase the
element the captured iterator points at. -/
def close_event_erase (set : List Nat) (target : Option Nat) : List Nat :=
  match target with
  | none => set
  | some t => set.erase t

/-- Loop-thread collaborator calls and socket operations observable in the
manager paths (listen handler, `connect`). -/
inductive ManagerAction where
  /-- Inbound socket accepted, i.e. `server.accept(*tcpHandle)`. -/
  | accepted
  /-- New `TCPConnection` constructed and inserted into `tcpConnections`. -/
  | inserted (peer : EndpointAddress) (inbound : Bool)
  /-- Shared reference handed to `PeerServer`, i.e. `ps.authenticate(connection)`. -/
  | authenticated (peer : EndpointAddress)
  /-- Failure notification `peerServer->on_failed_connect(a, err)`. -/
  | onFailedConnect (a : EndpointAddress) (err : ErrCode)
  /-- Call to `connection.start_read()` on the new connection. -/
  | startRead (id : Nat)
  deriving DecidableEq, Repr

/-- The `listen_event` handler registered in the `UV_Helper` constructor
(conman.cpp:51-61): if the isolated-mode flag is configured, return
immediately; otherwise accept the socket, read its peer address
(`peerSock`, the `sockaddr_storage` filled by `uv_tcp_getpeername`), and —
only when the peer is IPv4 — insert a new inbound connection and hand it to
the authentication collaborator. `newId` is the identity of the would-be
new connection. Returns the new `tcpConnections` contents and the actions
performed. -/
def on_listen_event (isolated : Bool) (le : Bool) (peerSock : SockaddrStorage)
    (set : List Nat) (newId : Nat) : List Nat × List ManagerAction :=
  if isolated then
    (set, [])
  else
    match get_ipv4_endpoint le peerSock with
    | some ep =>
        ((insert_connection set newId).set,
          [ManagerAction.accepted, ManagerAction.inserted ep true,
            ManagerAction.authenticated ep])
    | none => (set, [ManagerAction.accepted])

/-- Embedding of `UV_Helper::connect` (conman.cpp:124-135). `connectErr` is the result
the `tcp->connect(a.sock_addr())` call returns. If it is non-zero the peer
server is notified via `on_failed_connect`; then — unconditionally, the
source has no early return — the connection is inserted into
`tcpConnections` and `start_read` is called on it. -/
def uv_connect (a : EndpointAddress) (connectErr : ErrCode) (set : List Nat)
    (newId : Nat) : List Nat × List ManagerAction :=
  let notify :=
    if connectErr ≠ 0 then [ManagerAction.onFailedConnect a connectErr] else []
  let r := insert_connection set newId
  (r.set, notify ++ [ManagerAction.inserted a false, ManagerAction.startRead newId])

/-- Manager state as touched by `UV_Helper::shutdown`: the `closing` guard
flag, whether the wakeup notifier and listening socket have been closed,
and the states of the live connections (in `tcpConnections` order). -/
structure ManagerState where
  closing : Bool
  wakeupClosed : Bool
  listenerClosed : Bool
  conns : List ConnState
  deriving DecidableEq, Repr

/-- Embedding of `UV_Helper::shutdown` (conman.cpp:113-122): if the `closing` flag is
already set, return immediately; otherwise set it, close the wakeup
notifier and the listening socket, and call `close_internal(reason)` on
every connection in `tcpConnections`. The second component collects, per
connection, the events its `close_internal` produced. -/
def uv_shutdown (reason : ErrCode) (m : ManagerState) :
    ManagerState × List (List ConnEvent) :=
  if m.closing then
    (m, [])
  else
    let results := m.conns.map (close_internal reason)
    ({ closing := true, wakeupClosed := true, listenerClosed := true,
       conns := results.map Prod.fst },
      results.map Prod.snd)

/-! ## Event queue and wakeup (`conman.cpp:75-87`) -/

/-- The command variants held in `UV_Helper::events` (the tagged union
drained by `on_wakeup`); callbacks are identified by an id. -/
inductive QueueCommand where
  | getPeers (cb : Nat)
  | connectCmd (a : EndpointAddress)
  | inspect (cb : Nat)
  | deferFunc (cb : Nat)
  deriving DecidableEq, Repr

/-- Observable steps of `UV_Helper::on_wakeup`, in execution order. -/
inductive WakeupAction where
  | lockAcquire
  | lockRelease
  /-- Dispatch of one drained command through `std::visit` / `handle_event`. -/
  | execute (c : QueueCommand)
  deriving DecidableEq, Repr

/-- The drain loop of `on_wakeup`: while the local queue is nonempty, visit
the front command and pop it — executes the drained commands front to back. -/
def drain_loop : List QueueCommand → List WakeupAction
  | [] => []
  | c :: rest => WakeupAction.execute c :: drain_loop rest

/-- Embedding of `UV_Helper::on_wakeup` (conman.cpp:75-87): under the mutex — held only
for the swap — exchange the internal `events` queue with an empty local
queue, release the lock, then run the drain loop on the local copy.
Returns the internal queue contents after the call and the ordered trace of
actions. -/
def on_wakeup (events : List QueueCommand) : List QueueCommand × List WakeupAction :=
  let tmp := events
  let events' : List QueueCommand := []
  (events',
    WakeupAction.lockAcquire :: WakeupAction.lockRelease :: drain_loop tmp)

/-! ## Helper lemmas -/

/-- The drain loop executes exactly the drained commands, front to back. -/
theorem drain_loop_eq_map (q : List QueueCommand) :
    drain_loop q = q.map WakeupAction.execute := by
  induction q with
  | nil => rfl
  | cons c rest ih => simp [drain_loop, ih]

/-- Characterization of the closing branch of `async_send_internal`: when
the connection is not closing and either the write fails or the post-write
queue size exceeds the threshold, the connection transitions to closing and
emits the write attempt, the OS close, and the `EBUFFERFULL` notification. -/
theorem async_send_internal_closes (mb : Nat) (we : ErrCode) (sz : Nat)
    (s : ConnState) (h : s.closing = false)
    (htrig : we ≠ 0 ∨ (if we = 0 then s.writeQueueSize + sz else s.writeQueueSize) > mb) :
    async_send_internal mb we sz s
      = ({ closing := true,
           writeQueueSize := if we = 0 then s.writeQueueSize + sz else s.writeQueueSize },
         [ConnEvent.writeAttempt sz, ConnEvent.osClose,
           ConnEvent.onCloseNotify EBUFFERFULL]) := by
  by_cases hwe : we = 0
  · subst hwe
    have htrig' : s.writeQueueSize + sz > mb := by simpa using htrig
    simp [async_send_internal, close_internal, h, htrig']
  · simp [async_send_internal, close_internal, h, hwe]

/-! ## Claim theorems -/

/-- Claim C3: for an accepted IPv4 peer, the stored `EndpointAddress` has
its 32-bit IP converted from network to host byte order (`ntoh32`, a byte
swap on a little-endian host) while the 16-bit port is the raw `sin_port`
value without conversion; so on a little-endian host — where the peer's
actual port `p` appears on the wire as `byteswap16 p` — the stored port
differs from `p` exactly when the two bytes of `p` differ. -/
theorem accept_stores_ip_swapped_port_raw (storage : SockaddrStorage)
    (hfam : storage.family = AddressFamily.af_inet)
    (p : Nat) (hp : p < 2 ^ 16) (hport : storage.sin_port = byteswap16 p) :
    get_ipv4_endpoint true storage
      = some ⟨byteswap32 storage.sin_addr, storage.sin_port⟩ ∧
    (storage.sin_port ≠ p ↔ p / 256 % 256 ≠ p % 256) := by
  constructor
  · simp [get_ipv4_endpoint, ntoh32, hfam]
  · rw [hport]
    unfold byteswap16
    omega

/-- Witness for C3 at a concrete peer: actual port `0x1234` arrives as
`sin_port = 0x3412` and is stored unswapped, differing from the peer's
actual port. -/
theorem accept_stores_ip_swapped_port_raw_witness :
    get_ipv4_endpoint true ⟨AddressFamily.af_inet, 0x0100007F, 0x3412⟩
      = some ⟨byteswap32 0x0100007F, 0x3412⟩ ∧
    ((0x3412 : Nat) ≠ 0x1234 ↔ (0x1234 : Nat) / 256 % 256 ≠ 0x1234 % 256) :=
  accept_stores_ip_swapped_port_raw ⟨AddressFamily.af_inet, 0x0100007F, 0x3412⟩
    rfl 0x1234 (by decide) (by decide)

/-- Claim C4: `close_internal` is idempotent — running it twice on a
connection that was open produces exactly one OS-level close and exactly
one `on_close` notification, carrying the error code of the first call,
and the second run leaves the state unchanged. -/
theorem close_internal_idempotent (e1 e2 : ErrCode) (s : ConnState)
    (h : s.closing = false) :
    (close_internal e2 (close_internal e1 s).1).1 = (close_internal e1 s).1 ∧
    (close_internal e1 s).2 ++ (close_internal e2 (close_internal e1 s).1).2
      = [ConnEvent.osClose, ConnEvent.onCloseNotify e1] := by
  simp [close_internal, h]

/-- Witness for C4: two closes with codes 7 then 9 on an open connection
yield one OS close and one notification with code 7. -/
theorem close_internal_idempotent_witness :
    (close_internal 9 (close_internal 7 ⟨false, 0⟩).1).1
        = (close_internal 7 ⟨false, 0⟩).1 ∧
    (close_internal 7 (⟨false, 0⟩ : ConnState)).2
        ++ (close_internal 9 (close_internal 7 ⟨false, 0⟩).1).2
      = [ConnEvent.osClose, ConnEvent.onCloseNotify 7] :=
  close_internal_idempotent 7 9 ⟨false, 0⟩ rfl

/-- Claim C5: the loop-thread body of `async_send` is a no-op on a closing
connection; otherwise, if the write call fails or the post-write queue
length exceeds the threshold, the connection is closed with `EBUFFERFULL`,
and every subsequent `async_send` body on it is a no-op (no further write
attempted). -/
theorem async_send_backpressure (mb : Nat) (we : ErrCode) (sz : Nat)
    (s : ConnState) :
    (s.closing = true → async_send_internal mb we sz s = (s, [])) ∧
    (s.closing = false →
      (we ≠ 0 ∨ (if we = 0 then s.writeQueueSize + sz else s.writeQueueSize) > mb) →
      ((async_send_internal mb we sz s).1.closing = true ∧
        ConnEvent.onCloseNotify EBUFFERFULL ∈ (async_send_internal mb we sz s).2 ∧
        ∀ we2 sz2, async_send_internal mb we2 sz2 (async_send_internal mb we sz s).1
          = ((async_send_internal mb we sz s).1, []))) := by
  refine ⟨fun h => by simp [async_send_internal, h], fun h htrig => ?_⟩
  rw [async_send_internal_closes mb we sz s h htrig]
  refine ⟨rfl, by simp, fun we2 sz2 => ?_⟩
  simp [async_send_internal]

/-- Witness for C5: an open connection with queue size 95 sending 10 bytes
against threshold 100 is closed with `EBUFFERFULL`, and a further send is a
no-op. -/
theorem async_send_backpressure_witness :
    (async_send_internal 100 0 10 ⟨false, 95⟩).1.closing = true ∧
    ConnEvent.onCloseNotify EBUFFERFULL ∈ (async_send_internal 100 0 10 ⟨false, 95⟩).2 ∧
    async_send_internal 100 0 5 (async_send_internal 100 0 10 ⟨false, 95⟩).1
      = ((async_send_internal 100 0 10 ⟨false, 95⟩).1, []) := by
  have h := (async_send_backpressure 100 0 10 ⟨false, 95⟩).2 rfl (by decide)
  exact ⟨h.1, h.2.1, h.2.2 0 5⟩

/-- Claim C6: `shutdown` is idempotent under the `closing` flag — the first
call on a non-closing manager closes the wakeup notifier and the listening
socket and runs `close_internal(reason)` on every connection (one OS close
and one notification per connection that was still open), and a second call
returns immediately without touching anything. -/
theorem shutdown_idempotent (reason reason2 : ErrCode) (m : ManagerState)
    (h : m.closing = false) :
    (uv_shutdown reason m).1.wakeupClosed = true ∧
    (uv_shutdown reason m).1.listenerClosed = true ∧
    (uv_shutdown reason m).2 = m.conns.map (fun c =>
      if c.closing then [] else [ConnEvent.osClose, ConnEvent.onCloseNotify reason]) ∧
    uv_shutdown reason2 (uv_shutdown reason m).1 = ((uv_shutdown reason m).1, []) := by
  simp [uv_shutdown, h, close_internal, Function.comp_def, apply_ite]

/-- Witness for C6: shutting down a manager with one open and one already
closing connection twice closes the open one exactly once; the second call
is a no-op. -/
theorem shutdown_idempotent_witness :
    (uv_shutdown 0 ⟨false, false, false, [⟨false, 0⟩, ⟨true, 0⟩]⟩).1.wakeupClosed = true ∧
    (uv_shutdown 0 ⟨false, false, false, [⟨false, 0⟩, ⟨true, 0⟩]⟩).1.listenerClosed = true ∧
    (uv_shutdown 0 ⟨false, false, false, [⟨false, 0⟩, ⟨true, 0⟩]⟩).2
      = ([⟨false, 0⟩, ⟨true, 0⟩] : List ConnState).map (fun c =>
          if c.closing then [] else [ConnEvent.osClose, ConnEvent.onCloseNotify 0]) ∧
    uv_shutdown 0 (uv_shutdown 0 ⟨false, false, false, [⟨false, 0⟩, ⟨true, 0⟩]⟩).1
      = ((uv_shutdown 0 ⟨false, false, false, [⟨false, 0⟩, ⟨true, 0⟩]⟩).1, []) :=
  shutdown_idempotent 0 0 ⟨false, false, false, [⟨false, 0⟩, ⟨true, 0⟩]⟩ rfl

/-- Claim C7: `on_wakeup` swaps the whole queue out (leaving it empty),
holds the lock only for the swap, and executes all drained commands in
enqueue (FIFO) order strictly after the lock is released. -/
theorem wakeup_drains_fifo_outside_lock (q : List QueueCommand) :
    (on_wakeup q).1 = [] ∧
    (on_wakeup q).2 = WakeupAction.lockAcquire :: WakeupAction.lockRelease
        :: q.map WakeupAction.execute := by
  exact ⟨rfl, by simp [on_wakeup, drain_loop_eq_map]⟩

/-- Claim C8: for an accepted inbound socket whose peer address family is
not IPv4, the socket is dropped — no connection constructed or inserted and
the authentication collaborator never invoked; for an IPv4 peer, a
connection is constructed, inserted, and handed to the authentication
collaborator. -/
theorem accept_ipv4_only (le : Bool) (peerSock : SockaddrStorage)
    (set : List Nat) (newId : Nat) :
    (peerSock.family ≠ AddressFamily.af_inet →
      on_listen_event false le peerSock set newId = (set, [ManagerAction.accepted])) ∧
    (peerSock.family = AddressFamily.af_inet →
      on_listen_event false le peerSock set newId
        = (set ++ [newId],
            [ManagerAction.accepted,
              ManagerAction.inserted ⟨ntoh32 le peerSock.sin_addr, peerSock.sin_port⟩ true,
              ManagerAction.authenticated
                ⟨ntoh32 le peerSock.sin_addr, peerSock.sin_port⟩])) := by
  constructor <;> intro h <;>
    simp [on_listen_event, get_ipv4_endpoint, insert_connection, h]

/-- Witness for C8: an IPv6 peer is dropped (only the accept happens) while
an IPv4 peer is inserted and authenticated. -/
theorem accept_ipv4_only_witness :
    on_listen_event false true ⟨AddressFamily.af_inet6, 0, 0⟩ [5] 9
      = ([5], [ManagerAction.accepted]) ∧
    on_listen_event false true ⟨AddressFamily.af_inet, 0x0100007F, 0x3412⟩ [5] 9
      = ([5, 9],
          [ManagerAction.accepted,
            ManagerAction.inserted ⟨ntoh32 true 0x0100007F, 0x3412⟩ true,
            ManagerAction.authenticated ⟨ntoh32 true 0x0100007F, 0x3412⟩]) :=
  ⟨(accept_ipv4_only true ⟨AddressFamily.af_inet6, 0, 0⟩ [5] 9).1 (by decide),
    (accept_ipv4_only true ⟨AddressFamily.af_inet, 0x0100007F, 0x3412⟩ [5] 9).2 rfl⟩

/-- Claim C9: with the isolated-mode flag set, the listen handler returns
immediately — no socket accepted, nothing inserted into the connection set,
and the authentication collaborator never invoked. -/
theorem isolated_accepts_no_peers (le : Bool) (peerSock : SockaddrStorage)
    (set : List Nat) (newId : Nat) :
    on_listen_event true le peerSock set newId = (set, []) := rfl

/-- Claim C10: the `uv_tcp_getpeername` call lives only inside the assert
expression, so the subsequent reads of the `sockaddr_storage` are
meaningful only when the asserted call executes and returns 0: with asserts
enabled and a zero return, the result is exactly the endpoint decoded from
the storage the call filled (independent of the storage's initial
contents); with asserts enabled and a non-zero return, the process aborts;
with asserts compiled out, the call never runs and the result depends on
the indeterminate initial contents of the storage. -/
theorem getpeername_only_inside_assert (le : Bool) (pn : GetpeernameResult)
    (g : SockaddrStorage) (h : pn.ret = 0) :
    get_ipv4_endpoint_asserting le true pn g = some (get_ipv4_endpoint le pn.filled) ∧
    (∀ pn2 g2, pn2.ret ≠ 0 → get_ipv4_endpoint_asserting le true pn2 g2 = none) ∧
    (∃ pn3 g1 g2, get_ipv4_endpoint_asserting le false pn3 g1
        ≠ get_ipv4_endpoint_asserting le false pn3 g2) := by
  refine ⟨by simp [get_ipv4_endpoint_asserting, h],
    fun pn2 g2 h2 => by simp [get_ipv4_endpoint_asserting, h2], ?_⟩
  refine ⟨⟨0, ⟨AddressFamily.af_inet, 0, 0⟩⟩, ⟨AddressFamily.af_inet, 0, 0⟩,
    ⟨AddressFamily.af_inet6, 0, 0⟩, ?_⟩
  simp [get_ipv4_endpoint_asserting, get_ipv4_endpoint]

/-- Witness for C10 at a concrete successful `uv_tcp_getpeername` result on
a little-endian host. -/
theorem getpeername_only_inside_assert_witness :
    get_ipv4_endpoint_asserting true true ⟨0, ⟨AddressFamily.af_inet, 1, 2⟩⟩
        ⟨AddressFamily.af_inet6, 0, 0⟩
      = some (get_ipv4_endpoint true ⟨AddressFamily.af_inet, 1, 2⟩) :=
  (getpeername_only_inside_assert true ⟨0, ⟨AddressFamily.af_inet, 1, 2⟩⟩
    ⟨AddressFamily.af_inet6, 0, 0⟩ rfl).1

/-- Claim C1 (divergence): evaluating `UV_Helper::connect` to address
10.0.0.1:1 with an immediately failing connect call (error code -111):
`on_failed_connect` is notified, but — because the source has no early
return after the notification — the connection is nevertheless inserted
into the connection set (which ends up `[7]`, not empty) and `start_read`
is called on it. -/
theorem connect_failure_still_inserts :
    uv_connect ⟨0x0A000001, 1⟩ (-111) [] 7
      = ([7],
          [ManagerAction.onFailedConnect ⟨0x0A000001, 1⟩ (-111),
            ManagerAction.inserted ⟨0x0A000001, 1⟩ false,
            ManagerAction.startRead 7]) := by
  decide

/-- Claim C2 (divergence): inserting connection 1 and then connection 2,
the close handler registered for connection 2 captured
`tcpConnections.begin()`, which points at connection 1's entry; so when
connection 2's OS handle finishes closing, connection 1's entry is erased
and connection 2 remains in the set. -/
theorem close_event_erases_wrong_entry :
    (insert_connection (insert_connection [] 1).set 2).closeHandlerTarget = some 1 ∧
    close_event_erase (insert_connection (insert_connection [] 1).set 2).set
        (insert_connection (insert_connection [] 1).set 2).closeHandlerTarget
      = [2] := by
  decide

end Warthog
